import Mathlib

/-!
Verification of the fusetree node types (src/fusetree/nodetypes.py and
src/fusetree/core.py) against their natural-language specification.

The Python code is shallowly embedded: byte strings become `List Nat`,
Python dicts become insertion-ordered association lists with the update /
delete semantics of CPython dicts, exceptions become `Except PyErr`, and
the stateful handle protocol of `BlobFile` becomes an explicit step
function on a state record.
-/

namespace Fusetree

/-- Errno values raised through `fuse.FuseOSError` in the source.  Only
the attributes that actually exist in CPython's `errno` module appear
here: the source also writes `errno.ENOPERM`, but the `errno` module has
no such attribute, so evaluating that expression raises
`AttributeError` instead of producing an errno. -/
inductive Errno where
  | ENOSYS
  | ENOENT
  deriving DecidableEq, Repr

/-- Python-level failures the embedded operations can raise: a
`fuse.FuseOSError` carrying an errno, a `KeyError` (from `del d[k]` on a
missing key), a `NameError` (an unbound variable such as `name` in
`DictDir.rename`), an `AttributeError` (a missing module attribute such
as `errno.ENOPERM`, which CPython's `errno` module does not define), or a
`TypeError` (an unexpected keyword argument). -/
inductive PyErr where
  | fuseError (e : Errno)
  | keyError (k : String)
  | nameError (v : String)
  | attributeError (attr : String)
  | typeError
  deriving DecidableEq, Repr

/-- Nodes of the tree, as built by `nodetypes.py`: `BlobFile` (buffered
file with committed data, mode bits and a read-write flag), `DictDir`
(read-write flag plus an insertion-ordered name-to-node mapping),
`Symlink` (literal target), and a stand-in for any other node kind
(used as a non-`DictDir` rename destination). -/
inductive NodeM where
  | blobFile (data : List Nat) (mode : Nat) (rw : Bool)
  | dictDir (rw : Bool) (mode : Nat) (contents : List (String × NodeM))
  | symlink (target : String) (mode : Nat)
  | otherNode

/-! ## CPython dict semantics on insertion-ordered association lists

`d[k] = v` keeps the position of an existing key and appends a fresh key;
`del d[k]` removes the pair or raises `KeyError`; `d.keys()` is a live
view whose iteration order is insertion order; `d.get(k, None)` is a
non-raising lookup. -/

def dictSet (l : List (String × NodeM)) (k : String) (v : NodeM) :
    List (String × NodeM) :=
  match l with
  | [] => [(k, v)]
  | (k', v') :: rest =>
      if k' = k then (k, v) :: rest else (k', v') :: dictSet rest k v

def dictMem (l : List (String × NodeM)) (k : String) : Bool :=
  match l with
  | [] => false
  | (k', _) :: rest => k' = k || dictMem rest k

def dictDel (l : List (String × NodeM)) (k : String) :
    List (String × NodeM) :=
  match l with
  | [] => []
  | (k', v') :: rest =>
      if k' = k then rest else (k', v') :: dictDel rest k

def dictGet (l : List (String × NodeM)) (k : String) : Option NodeM :=
  match l with
  | [] => none
  | (k', v') :: rest => if k' = k then some v' else dictGet rest k

def dictKeys (l : List (String × NodeM)) : List String :=
  l.map Prod.fst

/-! ## DictDir operations (src/fusetree/nodetypes.py, lines 205-280)

The state of one `DictDir` is its read-write flag `rw` together with its
`contents` mapping.  Each mutating operation returns either an error and
(implicitly) the unchanged state, or the updated contents. -/

structure DirSt where
  rw : Bool
  mode : Nat
  contents : List (String × NodeM)

/-- `DictDir.lookup`: `self.contents.get(name, None)`. -/
def lookupD (s : DirSt) (name : String) : Option NodeM :=
  dictGet s.contents name

/-- `DictDir.mknod`: when read-only it attempts
`raise fuse.FuseOSError(errno.ENOPERM)`, whose `errno.ENOPERM` lookup
raises `AttributeError` (no such errno attribute exists); it rejects with
ENOSYS when `dev != 0`; otherwise it inserts a fresh writable empty
`BlobFile` under `name` and returns it. -/
def mknodD (s : DirSt) (name : String) (mode : Nat) (dev : Nat) :
    Except PyErr (DirSt × NodeM) :=
  if !s.rw then .error (.attributeError "ENOPERM")
  else if dev ≠ 0 then .error (.fuseError .ENOSYS)
  else
    let newFile := NodeM.blobFile [] (mode &&& 511) true
    .ok ({ s with contents := dictSet s.contents name newFile }, newFile)

/-- `DictDir.mkdir`: when read-only the failed `errno.ENOPERM` lookup
raises `AttributeError`; otherwise it inserts a fresh writable empty
`DictDir` under `name` and returns it. -/
def mkdirD (s : DirSt) (name : String) (mode : Nat) :
    Except PyErr (DirSt × NodeM) :=
  if !s.rw then .error (.attributeError "ENOPERM")
  else
    let newDir := NodeM.dictDir true (mode &&& 511) []
    .ok ({ s with contents := dictSet s.contents name newDir }, newDir)

/-- `DictDir.unlink`: when read-only the failed `errno.ENOPERM` lookup
raises `AttributeError`; otherwise it executes `del self.contents[name]`,
which raises `KeyError` when the name is absent. -/
def unlinkD (s : DirSt) (name : String) : Except PyErr DirSt :=
  if !s.rw then .error (.attributeError "ENOPERM")
  else if dictMem s.contents name then
    .ok { s with contents := dictDel s.contents name }
  else .error (.keyError name)

/-- `DictDir.rmdir`: same body as `unlink` (no emptiness check). -/
def rmdirD (s : DirSt) (name : String) : Except PyErr DirSt :=
  if !s.rw then .error (.attributeError "ENOPERM")
  else if dictMem s.contents name then
    .ok { s with contents := dictDel s.contents name }
  else .error (.keyError name)

/-- `DictDir.symlink`: when read-only the failed `errno.ENOPERM` lookup
raises `AttributeError`; otherwise it inserts a fresh `Symlink(target)`
under `name`. -/
def symlinkD (s : DirSt) (name : String) (target : String) :
    Except PyErr DirSt :=
  if !s.rw then .error (.attributeError "ENOPERM")
  else .ok { s with contents := dictSet s.contents name (NodeM.symlink target 292) }

/-- `DictDir.rename`: raises ENOSYS when `new_parent` is not a `DictDir`;
then, when either directory is read-only, the failed `errno.ENOPERM`
lookup in `raise fuse.FuseOSError(errno.ENOPERM)` raises
`AttributeError`; the remaining body `node = self.contents[name]` reads
the unbound variable `name` (the parameters are `old_name` and
`new_name`), so it raises `NameError` before touching either mapping. -/
def renameD (s : DirSt) (oldName : String) (newParent : NodeM)
    (newName : String) : Except PyErr (DirSt × NodeM) :=
  match newParent with
  | NodeM.dictDir prw _pmode pcontents =>
      if !s.rw || !prw then .error (.attributeError "ENOPERM")
      else
        -- the source would now evaluate `self.contents[name]`
        let _ := (oldName, newName, pcontents)
        .error (.nameError "name")
  | _ => .error (.fuseError .ENOSYS)

/-- `DictDir.link`: inserts `node` under `name`.  The source performs no
read-write check before mutating the mapping. -/
def linkD (s : DirSt) (name : String) (node : NodeM) :
    Except PyErr DirSt :=
  .ok { s with contents := dictSet s.contents name node }

/-- `DictDir.opendir` stores `self.contents.keys()` in the handle: a live
view of the mapping, not a copy.  `readdir` therefore yields the key
sequence of the mapping as it stands at iteration time, in insertion
order. -/
def readdirD (dirAtReadTime : DirSt) : List String :=
  dictKeys dirAtReadTime.contents

/-- Snapshot semantics as the specification words them ("a handle
snapshotting the current key set at open time"): the key sequence captured
when `opendir` ran, independent of later mutation.  Used only to compare
the spec's wording against `readdirD`. -/
def readdirSnapshotSpec (dirAtOpenTime : DirSt) : List String :=
  dictKeys dirAtOpenTime.contents

/-! ## GeneratorFile (src/fusetree/nodetypes.py, lines 131-165)

A session's cursor state: the chunks the producer has not yet yielded
(the producer is a finite sequence of byte chunks here), the current
chunk (`None` once the producer is exhausted), the position inside the
current chunk, and the `min_read_len` threshold (`-1` means unset). -/

structure GenSt where
  chunks : List (List Nat)
  currentBlob : Option (List Nat)
  pos : Nat
  minReadLen : Int

/-- The state `GeneratorFile.Handle.__init__` builds for a fresh session:
`current_blob = b''`, `current_blob_position = 0`. -/
def genInit (chunks : List (List Nat)) (minReadLen : Int) : GenSt :=
  ⟨chunks, some [], 0, minReadLen⟩

/-- The `while` loop of `GeneratorFile.Handle.read`: accumulate into `ret`
while `size > len(ret)` and the current blob is not `None`; each iteration
either copies `n = min(size - len(ret), len(blob) - pos)` bytes when
`n > 0`, or pulls the next chunk from the producer (setting the blob to
`None` on `StopIteration`); after either action the loop breaks early when
`min_read_len > 0` and `len(ret) >= min_read_len`. -/
def genReadLoop (size : Nat) (mrl : Int) (ret : List Nat)
    (blob : Option (List Nat)) (pos : Nat) (chunks : List (List Nat)) :
    List Nat × GenSt :=
  match blob with
  | none => (ret, ⟨chunks, none, pos, mrl⟩)
  | some b =>
      if hsz : ret.length < size then
        let n := min (size - ret.length) (b.length - pos)
        if hn : 0 < n then
          let ret' := ret ++ (b.drop pos).take n
          let pos' := pos + n
          if mrl > 0 ∧ mrl ≤ (ret'.length : Int) then
            (ret', ⟨chunks, some b, pos', mrl⟩)
          else
            genReadLoop size mrl ret' (some b) pos' chunks
        else
          match chunks with
          | c :: rest =>
              if mrl > 0 ∧ mrl ≤ (ret.length : Int) then
                (ret, ⟨rest, some c, 0, mrl⟩)
              else
                genReadLoop size mrl ret (some c) 0 rest
          | [] => (ret, ⟨[], none, 0, mrl⟩)
      else (ret, ⟨chunks, some b, pos, mrl⟩)
termination_by (chunks.length + (if blob.isSome then 1 else 0), size - ret.length)
decreasing_by
  · apply Prod.Lex.right
    simp only [n, ret', List.length_append, List.length_take, List.length_drop]
    omega
  · apply Prod.Lex.left
    simp

/-- `GeneratorFile.Handle.read(size, offset)`: the `offset` parameter is
accepted but never read by the body. -/
def genRead (size : Nat) (offset : Nat) (st : GenSt) : List Nat × GenSt :=
  let _ := offset
  genReadLoop size st.minReadLen [] st.currentBlob st.pos st.chunks

/-! ## BlobFile shared-handle protocol (src/fusetree/nodetypes.py, 52-127)

`io.BytesIO` is embedded as a `List Nat`: `seek(offset)` followed by
`write(data)` overwrites in place, zero-padding any gap when the offset
lies past the end; `truncate(size)` cuts to `size` and never extends;
`seek(offset)` followed by `read(size)` returns at most `size` bytes
starting at `offset`. -/

def bytesWrite (buf : List Nat) (offset : Nat) (data : List Nat) :
    List Nat :=
  buf.take offset ++ List.replicate (offset - buf.length) 0 ++ data ++
    buf.drop (offset + data.length)

def bytesRead (buf : List Nat) (size : Nat) (offset : Nat) : List Nat :=
  (buf.drop offset).take size

/-- The shared `BlobFile.Handle`: buffer contents, dirty flag, and the
open-session reference count (a Python int). -/
structure BHandle where
  buffer : List Nat
  dirty : Bool
  refs : Int

/-- A `BlobFile` node: its read-write flag, its committed `data` (what
`load` returns and `save` overwrites), and the optional shared handle. -/
structure BlobSt where
  rw : Bool
  data : List Nat
  shared : Option BHandle

/-- The operations a transport can issue against one `BlobFile` node and
its shared handle: `open`, `Handle.write(data, offset)`,
`Handle.truncate(size)`, and `Handle.release`. -/
inductive BOp where
  | openB
  | writeB (data : List Nat) (offset : Nat)
  | truncB (size : Nat)
  | releaseB

/-- One operation against the node.  Returns the new node state together
with the list of contents passed to `save` during the operation (empty or
a singleton).

* `open`: when no shared handle exists, build one from `load()` with
  `dirty = False` and `refs = 0`; then `refs += 1`.
* `write`/`truncate`: unless the node is read-write, raise without any
  effect on the state (the source's `raise fuse.FuseOSError(errno.ENOPERM)`
  — itself an `AttributeError`, since `errno.ENOPERM` does not exist —
  precedes every mutation); otherwise set `dirty` and mutate the buffer
  in place.
* `release`: `refs -= 1`; when the count reaches `0`, `flush` (calling
  `save` with the buffer contents exactly when dirty) and drop the shared
  handle. -/
def stepB (s : BlobSt) : BOp → BlobSt × List (List Nat)
  | .openB =>
      let h : BHandle := match s.shared with
               | none => ⟨s.data, false, 0⟩
               | some h => h
      ({ s with shared := some { h with refs := h.refs + 1 } }, [])
  | .writeB d off =>
      match s.shared with
      | none => (s, [])
      | some h =>
          if s.rw then
            let h' := { h with dirty := true,
                               buffer := bytesWrite h.buffer off d }
            ({ s with shared := some h' }, [])
          else (s, [])
  | .truncB n =>
      match s.shared with
      | none => (s, [])
      | some h =>
          if s.rw then
            let h' := { h with dirty := true, buffer := h.buffer.take n }
            ({ s with shared := some h' }, [])
          else (s, [])
  | .releaseB =>
      match s.shared with
      | none => (s, [])
      | some h =>
          let refs' := h.refs - 1
          if refs' = 0 then
            if h.dirty then
              ({ rw := s.rw, data := h.buffer, shared := none }, [h.buffer])
            else ({ s with shared := none }, [])
          else ({ s with shared := some { h with refs := refs' } }, [])

/-- Run a sequence of operations, collecting every `save` call. -/
def runB (s : BlobSt) : List BOp → BlobSt × List (List Nat)
  | [] => (s, [])
  | op :: rest =>
      let r := stepB s op
      let r' := runB r.1 rest
      (r'.1, r.2 ++ r'.2)

/-- The session count as observed on the node: the shared handle's
reference count, or `0` when no shared handle exists. -/
def sessionCount (s : BlobSt) : Int :=
  match s.shared with
  | none => 0
  | some h => h.refs

/-- Decidable form of "the shared handle/buffer exists if and only if the
session count is greater than zero". -/
def sharedIffPos (s : BlobSt) : Bool :=
  s.shared.isSome == decide (0 < sessionCount s)

/-- `sharedIffPos` holds at the initial state and after every prefix of
the given operation list. -/
def allStatesIffPos (s : BlobSt) : List BOp → Bool
  | [] => sharedIffPos s
  | op :: rest => sharedIffPos s && allStatesIffPos (stepB s op).1 rest

/-- The write/truncate operations that may occur between the opens and the
releases of a session. -/
inductive WOp where
  | wr (data : List Nat) (offset : Nat)
  | tr (size : Nat)

def wopToB : WOp → BOp
  | .wr d off => .writeB d off
  | .tr n => .truncB n

/-- Effect of one write/truncate on the shared buffer (a rejected call on
a read-only node leaves the buffer unchanged). -/
def applyW (rw : Bool) (buf : List Nat) : WOp → List Nat
  | .wr d off => if rw then bytesWrite buf off d else buf
  | .tr n => if rw then buf.take n else buf

def applyWs (rw : Bool) (ws : List WOp) (buf : List Nat) : List Nat :=
  ws.foldl (applyW rw) buf

/-- The operation sequence of claim C1: `N` opens, then some writes and
truncations through the shared handle, then `N` releases. -/
def sessionTrace (N : Nat) (ws : List WOp) : List BOp :=
  List.replicate N .openB ++ ws.map wopToB ++ List.replicate N .releaseB

/-- The invariant "whenever the shared handle exists its reference count
is positive" (propositional form used in the preservation lemmas). -/
def invB (s : BlobSt) : Prop :=
  ∀ h, s.shared = some h → 0 < h.refs

/-! ## FileHandle construction (src/fusetree/core.py, lines 253-256)

`core.FileHandle.__init__` declares, besides `self`, exactly the keyword
parameters `node` and `direct_io`.  `GeneratorFile.Handle.__init__`
(nodetypes.py line 142) calls `super().__init__(node, direct_io=True,
nonseekable=True)`; under Python call semantics a keyword argument that
matches no parameter of the callee raises `TypeError`. -/

def fileHandleInitKwParams : List String := ["node", "direct_io"]

def generatorHandleSuperKwArgs : List String := ["direct_io", "nonseekable"]

/-- `GeneratorFile.open(mode)`: constructs a `GeneratorFile.Handle`, whose
`__init__` immediately performs the super call above; the call succeeds
and yields the fresh cursor state only if every keyword argument it passes
is a parameter of `core.FileHandle.__init__`. -/
def genFileOpen (chunks : List (List Nat)) (minReadLen : Int) :
    Except PyErr GenSt :=
  if generatorHandleSuperKwArgs.all (fun k => fileHandleInitKwParams.contains k) then
    .ok (genInit chunks minReadLen)
  else .error .typeError

/-! ## Dictionary lemmas -/

theorem dictSet_length_of_mem (l : List (String × NodeM)) (k : String)
    (v : NodeM) (h : dictMem l k = true) :
    (dictSet l k v).length = l.length := by
  induction l with
  | nil => simp [dictMem] at h
  | cons p rest ih =>
      obtain ⟨k', v'⟩ := p
      by_cases hk : k' = k
      · simp [dictSet, hk]
      · simp [dictMem, hk] at h
        simp [dictSet, hk, ih h]

theorem dictGet_dictSet (l : List (String × NodeM)) (k : String)
    (v : NodeM) : dictGet (dictSet l k v) k = some v := by
  induction l with
  | nil => simp [dictSet, dictGet]
  | cons p rest ih =>
      obtain ⟨k', v'⟩ := p
      by_cases hk : k' = k
      · simp [dictSet, hk, dictGet]
      · simp [dictSet, hk, dictGet, ih]

/-! ## Claims about DictDir -/

/-- C4: on a `DictDir` whose read-write flag is unset, no mutating
operation fails with PermissionDenied as claimed.  `mknod`, `mkdir`,
`symlink`, `unlink`, `rmdir` and `rename` (with a `DictDir` destination)
do fail without touching the mapping, but with `AttributeError`: their
read-write check evaluates `errno.ENOPERM`, an attribute CPython's
`errno` module does not define.  Worse, `link` performs no permission
check at all: on the read-only directory `{"x": n}` it succeeds and
inserts `"y"`, growing the mapping. -/
theorem dictDir_readonly_mutations :
    mknodD ⟨false, 292, [("x", NodeM.otherNode)]⟩ "y" 438 0 =
      .error (.attributeError "ENOPERM") ∧
    mkdirD ⟨false, 292, [("x", NodeM.otherNode)]⟩ "y" 438 =
      .error (.attributeError "ENOPERM") ∧
    symlinkD ⟨false, 292, [("x", NodeM.otherNode)]⟩ "y" "t" =
      .error (.attributeError "ENOPERM") ∧
    unlinkD ⟨false, 292, [("x", NodeM.otherNode)]⟩ "x" =
      .error (.attributeError "ENOPERM") ∧
    rmdirD ⟨false, 292, [("x", NodeM.otherNode)]⟩ "x" =
      .error (.attributeError "ENOPERM") ∧
    renameD ⟨false, 292, [("x", NodeM.otherNode)]⟩ "x"
        (NodeM.dictDir true 438 []) "z" =
      .error (.attributeError "ENOPERM") ∧
    linkD ⟨false, 292, [("x", NodeM.otherNode)]⟩ "y" NodeM.otherNode =
      .ok ⟨false, 292, [("x", NodeM.otherNode), ("y", NodeM.otherNode)]⟩ :=
  ⟨rfl, rfl, rfl, rfl, rfl, rfl, rfl⟩

/-- C3: `DictDir.rename` on a writable source directory holding `"a"` and
a writable `DictDir` destination raises `NameError` (its body reads the
unbound variable `name` instead of `old_name`/`new_name`) before touching
either mapping, instead of moving the entry; the NotSupported (ENOSYS)
branch for a non-`DictDir` destination does fire first. -/
theorem dictDir_rename_raises_name_error :
    renameD ⟨true, 438, [("a", NodeM.otherNode)]⟩ "a"
        (NodeM.dictDir true 438 []) "b" = .error (.nameError "name") ∧
    renameD ⟨true, 438, [("a", NodeM.otherNode)]⟩ "a" NodeM.otherNode "b" =
      .error (.fuseError .ENOSYS) :=
  ⟨rfl, rfl⟩

/-- C7 counterexample: `unlink("missing")` does not fail with NotFound
(ENOENT): on a read-only directory the read-write check fires first and
its `errno.ENOPERM` lookup raises `AttributeError`, and on a writable
directory `del self.contents[name]` raises `KeyError`; neither is the
POSIX NotFound error. -/
theorem unlink_missing_counterexample :
    unlinkD ⟨false, 292, []⟩ "missing" =
      .error (.attributeError "ENOPERM") ∧
    unlinkD ⟨true, 438, []⟩ "missing" = .error (.keyError "missing") ∧
    rmdirD ⟨true, 438, []⟩ "missing" = .error (.keyError "missing") ∧
    PyErr.attributeError "ENOPERM" ≠ PyErr.fuseError .ENOENT ∧
    PyErr.keyError "missing" ≠ PyErr.fuseError .ENOENT :=
  ⟨rfl, rfl, rfl, by decide, by decide⟩

/-- C7 amended: for a name absent from the mapping, `unlink` and `rmdir`
fail without returning an updated state, so the mapping is unchanged —
with `KeyError` (the mapping's missing-key failure, not the POSIX
NotFound code) on a writable directory, and with `AttributeError` (the
read-write check's failed `errno.ENOPERM` lookup) on a read-only
directory. -/
theorem unlink_rmdir_missing_behavior (s : DirSt) (name : String)
    (habs : dictMem s.contents name = false) :
    (s.rw = true →
      unlinkD s name = .error (.keyError name) ∧
      rmdirD s name = .error (.keyError name)) ∧
    (s.rw = false →
      unlinkD s name = .error (.attributeError "ENOPERM") ∧
      rmdirD s name = .error (.attributeError "ENOPERM")) := by
  constructor
  · intro hrw
    constructor <;> simp [unlinkD, rmdirD, hrw, habs]
  · intro hrw
    constructor <;> simp [unlinkD, rmdirD, hrw]

/-- C7 amended, witness: the writable empty directory with the absent
name `"missing"`. -/
theorem unlink_rmdir_missing_behavior_witness :
    dictMem (DirSt.mk true 438 []).contents "missing" = false ∧
    unlinkD ⟨true, 438, []⟩ "missing" = .error (.keyError "missing") ∧
    rmdirD ⟨true, 438, []⟩ "missing" = .error (.keyError "missing") := by
  have T := unlink_rmdir_missing_behavior ⟨true, 438, []⟩ "missing" rfl
  exact ⟨rfl, (T.1 rfl).1, (T.1 rfl).2⟩

/-- C9: on a writable `DictDir`, `mknod` (with `dev = 0`), `mkdir`,
`symlink` and `link` do not fail when the name is already mapped: each
replaces the existing entry with the new node (the new node is what a
subsequent lookup returns) and leaves the mapping's size unchanged. -/
theorem dictDir_existing_name_replacement (s : DirSt) (name : String)
    (mode dev : Nat) (node : NodeM) (target : String)
    (hrw : s.rw = true) (hmem : dictMem s.contents name = true)
    (hdev : dev = 0) :
    (∀ r, mknodD s name mode dev = .ok r →
      lookupD r.1 name = some r.2 ∧ r.1.contents.length = s.contents.length) ∧
    (mknodD s name mode dev).isOk = true ∧
    (∀ r, mkdirD s name mode = .ok r →
      lookupD r.1 name = some r.2 ∧ r.1.contents.length = s.contents.length) ∧
    (mkdirD s name mode).isOk = true ∧
    (∀ r, symlinkD s name target = .ok r →
      lookupD r name = some (NodeM.symlink target 292) ∧
      r.contents.length = s.contents.length) ∧
    (symlinkD s name target).isOk = true ∧
    (∀ r, linkD s name node = .ok r →
      lookupD r name = some node ∧ r.contents.length = s.contents.length) ∧
    (linkD s name node).isOk = true := by
  subst hdev
  refine ⟨?_, ?_, ?_, ?_, ?_, ?_, ?_, ?_⟩
  · intro r hr
    simp [mknodD, hrw] at hr
    rw [← hr]
    exact ⟨dictGet_dictSet _ _ _, dictSet_length_of_mem _ _ _ hmem⟩
  · simp [mknodD, hrw, Except.isOk, Except.toBool]
  · intro r hr
    simp [mkdirD, hrw] at hr
    rw [← hr]
    exact ⟨dictGet_dictSet _ _ _, dictSet_length_of_mem _ _ _ hmem⟩
  · simp [mkdirD, hrw, Except.isOk, Except.toBool]
  · intro r hr
    simp [symlinkD, hrw] at hr
    rw [← hr]
    exact ⟨dictGet_dictSet _ _ _, dictSet_length_of_mem _ _ _ hmem⟩
  · simp [symlinkD, hrw, Except.isOk, Except.toBool]
  · intro r hr
    simp [linkD] at hr
    rw [← hr]
    exact ⟨dictGet_dictSet _ _ _, dictSet_length_of_mem _ _ _ hmem⟩
  · simp [linkD, Except.isOk, Except.toBool]

/-- C9 witness: the writable directory `{"a": otherNode}` with the
already-present name `"a"`. -/
theorem dictDir_existing_name_replacement_witness :
    ((DirSt.mk true 438 [("a", NodeM.otherNode)]).rw = true ∧
     dictMem (DirSt.mk true 438 [("a", NodeM.otherNode)]).contents "a" =
       true ∧
     (0 : Nat) = 0) ∧
    (lookupD ⟨true, 438, [("a", NodeM.blobFile [] 438 true)]⟩ "a" =
       some (NodeM.blobFile [] 438 true) ∧
     (DirSt.mk true 438 [("a", NodeM.blobFile [] 438 true)]).contents.length =
       (DirSt.mk true 438 [("a", NodeM.otherNode)]).contents.length ∧
     (mknodD ⟨true, 438, [("a", NodeM.otherNode)]⟩ "a" 438 0).isOk = true ∧
     lookupD ⟨true, 438, [("a", NodeM.dictDir true 438 [])]⟩ "a" =
       some (NodeM.dictDir true 438 []) ∧
     (DirSt.mk true 438 [("a", NodeM.dictDir true 438 [])]).contents.length =
       (DirSt.mk true 438 [("a", NodeM.otherNode)]).contents.length ∧
     (mkdirD ⟨true, 438, [("a", NodeM.otherNode)]⟩ "a" 438).isOk = true ∧
     lookupD ⟨true, 438, [("a", NodeM.symlink "t" 292)]⟩ "a" =
       some (NodeM.symlink "t" 292) ∧
     (DirSt.mk true 438 [("a", NodeM.symlink "t" 292)]).contents.length =
       (DirSt.mk true 438 [("a", NodeM.otherNode)]).contents.length ∧
     (symlinkD ⟨true, 438, [("a", NodeM.otherNode)]⟩ "a" "t").isOk = true ∧
     lookupD ⟨true, 438, [("a", NodeM.otherNode)]⟩ "a" =
       some NodeM.otherNode ∧
     (DirSt.mk true 438 [("a", NodeM.otherNode)]).contents.length =
       (DirSt.mk true 438 [("a", NodeM.otherNode)]).contents.length ∧
     (linkD ⟨true, 438, [("a", NodeM.otherNode)]⟩ "a"
        NodeM.otherNode).isOk = true) := by
  have T := dictDir_existing_name_replacement
    ⟨true, 438, [("a", NodeM.otherNode)]⟩ "a" 438 0 NodeM.otherNode "t"
    rfl rfl rfl
  refine ⟨⟨rfl, rfl, rfl⟩, ?_, ?_, T.2.1, ?_, ?_, T.2.2.2.1, ?_, ?_,
    T.2.2.2.2.2.1, ?_, ?_, T.2.2.2.2.2.2.2⟩
  · exact (T.1 _ rfl).1
  · exact (T.1 _ rfl).2
  · exact (T.2.2.1 _ rfl).1
  · exact (T.2.2.1 _ rfl).2
  · exact (T.2.2.2.2.1 _ rfl).1
  · exact (T.2.2.2.2.1 _ rfl).2
  · exact (T.2.2.2.2.2.2.1 _ rfl).1
  · exact (T.2.2.2.2.2.2.1 _ rfl).2

/-- C5 counterexample: the `opendir` handle stores the live
`contents.keys()` view, not a snapshot.  On the writable directory
`{"a", "b"}`, a `mknod("c")` issued after `opendir` is visible to the
already-open handle: its `readdir` yields `a, b, c`, while the key set
snapshotted at `opendir` time was `a, b`. -/
theorem opendir_live_view_counterexample :
    mknodD ⟨true, 438, [("a", NodeM.otherNode), ("b", NodeM.otherNode)]⟩
        "c" 438 0 =
      .ok (⟨true, 438, [("a", NodeM.otherNode), ("b", NodeM.otherNode),
            ("c", NodeM.blobFile [] 438 true)]⟩,
           NodeM.blobFile [] 438 true) ∧
    readdirD ⟨true, 438, [("a", NodeM.otherNode), ("b", NodeM.otherNode),
        ("c", NodeM.blobFile [] 438 true)]⟩ = ["a", "b", "c"] ∧
    readdirSnapshotSpec
        ⟨true, 438, [("a", NodeM.otherNode), ("b", NodeM.otherNode)]⟩ =
      ["a", "b"] ∧
    (["a", "b", "c"] : List String) ≠ ["a", "b"] :=
  ⟨rfl, rfl, rfl, by decide⟩

/-- C5 amended: the handle returned by `opendir` holds a live view of the
key set: `readdir` yields exactly the names present in the mapping at
readdir time, in insertion order.  On a directory with children
`{"a", "b"}` and no intervening mutation this is the sequence `a, b`, a
second independent `opendir` yields the same sequence again, and a
mutation between `opendir` and `readdir` (here `mknod("c")`) is visible
through the already-open handle. -/
theorem opendir_live_view_readdir (x y : NodeM) (rwf : Bool) (m : Nat) :
    readdirD ⟨rwf, m, [("a", x), ("b", y)]⟩ = ["a", "b"] ∧
    readdirD ⟨rwf, m, [("a", x), ("b", y)]⟩ = ["a", "b"] ∧
    (∀ s : DirSt, readdirD s = dictKeys s.contents) ∧
    (∀ r, mknodD ⟨true, m, [("a", x), ("b", y)]⟩ "c" 438 0 = .ok r →
      readdirD r.1 = ["a", "b", "c"]) := by
  refine ⟨rfl, rfl, fun _ => rfl, ?_⟩
  intro r hr
  simp [mknodD] at hr
  rw [← hr]
  rfl

/-- C5 amended, witness: the concrete directory `{"a", "b"}` and the
state after `mknod("c")`. -/
theorem opendir_live_view_readdir_witness :
    readdirD ⟨true, 438, [("a", NodeM.otherNode), ("b", NodeM.otherNode)]⟩ =
      ["a", "b"] ∧
    readdirD ⟨true, 438, [("a", NodeM.otherNode), ("b", NodeM.otherNode),
        ("c", NodeM.blobFile [] 438 true)]⟩ = ["a", "b", "c"] := by
  have T := opendir_live_view_readdir NodeM.otherNode NodeM.otherNode
    true 438
  exact ⟨T.1, T.2.2.2 _ rfl⟩

/-! ## Claims about GeneratorFile -/

/-- C6: with producer chunks `[b"ab", b"cde"]` and no minimum-read-length
threshold, successive reads of size 4 return `b"abcd"`, then `b"e"`, then
the empty byte string for every subsequent call with the cursor left
unchanged (the session stays exhausted). -/
theorem generatorFile_read_sequence :
    genRead 4 0 (genInit [[97, 98], [99, 100, 101]] (-1)) =
      ([97, 98, 99, 100], ⟨[], some [99, 100, 101], 2, -1⟩) ∧
    genRead 4 4 ⟨[], some [99, 100, 101], 2, -1⟩ =
      ([101], ⟨[], none, 0, -1⟩) ∧
    (∀ size offset, genRead size offset ⟨[], none, 0, -1⟩ =
      ([], ⟨[], none, 0, -1⟩)) := by
  refine ⟨?_, ?_, ?_⟩
  · simp [genRead, genInit, genReadLoop]
  · simp [genRead, genReadLoop]
  · intro size offset
    rw [genRead, genReadLoop]

/-- C10: `GeneratorFile.Handle.read` never reads its `offset` parameter:
for every cursor state and request size, reads at any two offsets return
the same bytes and leave the cursor in the same state. -/
theorem generatorFile_read_offset_irrelevant (st : GenSt) (size o1 o2 : Nat) :
    genRead size o1 st = genRead size o2 st := rfl

/-- C8: `GeneratorFile.open` does not succeed: the handle's `__init__`
passes the keyword argument `nonseekable` to `core.FileHandle.__init__`,
whose only keyword parameters are `node` and `direct_io`, so the call
raises `TypeError`; in particular `core.FileHandle` carries no
non-seekable flag. -/
theorem generatorFile_open_type_error :
    (∀ chunks minReadLen, genFileOpen chunks minReadLen =
      .error .typeError) ∧
    generatorHandleSuperKwArgs.contains "nonseekable" = true ∧
    fileHandleInitKwParams.contains "nonseekable" = false ∧
    fileHandleInitKwParams.contains "direct_io" = true := by
  refine ⟨fun chunks minReadLen => ?_, by decide, by decide, by decide⟩
  simp [genFileOpen, generatorHandleSuperKwArgs, fileHandleInitKwParams]

/-! ## BlobFile run lemmas -/

theorem runB_append (l1 : List BOp) (s : BlobSt) (l2 : List BOp) :
    runB s (l1 ++ l2) =
      ((runB (runB s l1).1 l2).1,
       (runB s l1).2 ++ (runB (runB s l1).1 l2).2) := by
  induction l1 generalizing s with
  | nil => simp [runB]
  | cons op rest ih => simp [runB, ih, List.append_assoc]

theorem runB_opens_some (N : Nat) :
    ∀ (k : Int) (b : List Nat) (dt : Bool) (rwf : Bool) (d0 : List Nat),
    runB ⟨rwf, d0, some ⟨b, dt, k⟩⟩ (List.replicate N .openB) =
      (⟨rwf, d0, some ⟨b, dt, k + N⟩⟩, []) := by
  induction N with
  | zero => intro k b dt rwf d0; simp [runB]
  | succ n ih =>
      intro k b dt rwf d0
      rw [List.replicate_succ]
      simp only [runB, stepB, ih]
      have hk : k + 1 + (n : Int) = k + ((n : Nat) + (1 : Nat) : Nat) := by
        push_cast
        ring
      rw [hk]
      simp

theorem runB_opens_none (N : Nat) (hN : 1 ≤ N) (rwf : Bool)
    (d0 : List Nat) :
    runB ⟨rwf, d0, none⟩ (List.replicate N .openB) =
      (⟨rwf, d0, some ⟨d0, false, (N : Int)⟩⟩, []) := by
  obtain ⟨n, rfl⟩ : ∃ n, N = n + 1 := ⟨N - 1, by omega⟩
  rw [List.replicate_succ]
  simp only [runB, stepB, runB_opens_some]
  have hk : (0 : Int) + 1 + (n : Int) = ((n + 1 : Nat) : Int) := by
    push_cast
    ring
  rw [hk]
  simp

theorem runB_ws (ws : List WOp) :
    ∀ (b : List Nat) (dt : Bool) (k : Int) (rwf : Bool) (d0 : List Nat),
    runB ⟨rwf, d0, some ⟨b, dt, k⟩⟩ (ws.map wopToB) =
      (⟨rwf, d0, some ⟨applyWs rwf ws b, dt || (rwf && !ws.isEmpty), k⟩⟩,
       []) := by
  induction ws with
  | nil => intro b dt k rwf d0; simp [runB, applyWs]
  | cons w rest ih =>
      intro b dt k rwf d0
      cases w with
      | wr d off =>
          cases rwf with
          | false => simp [runB, stepB, wopToB, ih, applyWs, applyW]
          | true => simp [runB, stepB, wopToB, ih, applyWs, applyW]
      | tr n =>
          cases rwf with
          | false => simp [runB, stepB, wopToB, ih, applyWs, applyW]
          | true => simp [runB, stepB, wopToB, ih, applyWs, applyW]

theorem runB_releases (N : Nat) (hN : 1 ≤ N) :
    ∀ (b : List Nat) (dt : Bool) (rwf : Bool) (d0 : List Nat),
    runB ⟨rwf, d0, some ⟨b, dt, (N : Int)⟩⟩ (List.replicate N .releaseB) =
      (⟨rwf, if dt then b else d0, none⟩, if dt then [b] else []) := by
  induction N with
  | zero => omega
  | succ n ih =>
      intro b dt rwf d0
      rw [List.replicate_succ]
      by_cases hn : n = 0
      · subst hn
        cases dt <;> simp [runB, stepB]
      · have h2 : ((n + 1 : Nat) : Int) - 1 = ((n : Nat) : Int) := by
          push_cast
          ring
        have h3 : ((n : Nat) : Int) ≠ 0 := by
          exact_mod_cast hn
        simp only [runB, stepB, h2]
        simp [h3, hn, ih (by omega) b dt rwf d0]

theorem sharedIffPos_of_inv (s : BlobSt) (h : invB s) :
    sharedIffPos s = true := by
  unfold sharedIffPos sessionCount
  cases hs : s.shared with
  | none => simp
  | some hh => simp [h hh hs]

theorem stepB_inv (s : BlobSt) (op : BOp) (h : invB s) :
    invB (stepB s op).1 := by
  obtain ⟨rwf, d0, sh⟩ := s
  intro h' hh'
  cases sh with
  | none =>
      cases op with
      | openB =>
          simp only [stepB, Option.some.injEq] at hh'
          subst hh'
          simp
      | writeB d off => exact h h' hh'
      | truncB n => exact h h' hh'
      | releaseB => exact h h' hh'
  | some h0 =>
      have h0pos : 0 < h0.refs := h h0 rfl
      cases op with
      | openB =>
          simp only [stepB, Option.some.injEq] at hh'
          subst hh'
          simp
          omega
      | writeB d off =>
          by_cases hrw : rwf
          · simp only [stepB, hrw, if_true, Option.some.injEq] at hh'
            subst hh'
            simpa using h0pos
          · simp [stepB, hrw] at hh'
            subst hh'
            exact h0pos
      | truncB n =>
          by_cases hrw : rwf
          · simp only [stepB, hrw, if_true, Option.some.injEq] at hh'
            subst hh'
            simpa using h0pos
          · simp [stepB, hrw] at hh'
            subst hh'
            exact h0pos
      | releaseB =>
          by_cases hz : h0.refs - 1 = 0
          · cases hd : h0.dirty <;>
              simp [stepB, hz, hd] at hh'
          · simp only [stepB, if_neg hz, Option.some.injEq] at hh'
            subst hh'
            simp
            omega

theorem allStates_of_inv (l : List BOp) :
    ∀ (s : BlobSt), invB s → allStatesIffPos s l = true := by
  induction l with
  | nil =>
      intro s h
      simp [allStatesIffPos, sharedIffPos_of_inv s h]
  | cons op rest ih =>
      intro s h
      simp [allStatesIffPos, sharedIffPos_of_inv s h,
        ih _ (stepB_inv s op h)]

/-- C1: starting from a `BlobFile` with no open session, running `N ≥ 1`
`open` calls, then any writes/truncations through the shared handle, then
`N` `release` calls: the session count returns to exactly zero and the
shared handle is discarded; at every intermediate state the shared handle
exists iff the session count is positive; `save` is invoked at most once,
and is invoked (with the final buffer content, which also becomes the
node's committed data) exactly when the node is writable and at least one
write or truncate occurred. -/
theorem blobFile_session_lifecycle (N : Nat) (hN : 1 ≤ N) (ws : List WOp)
    (rwf : Bool) (d0 : List Nat) :
    sessionCount (runB ⟨rwf, d0, none⟩ (sessionTrace N ws)).1 = 0 ∧
    (runB ⟨rwf, d0, none⟩ (sessionTrace N ws)).1.shared = none ∧
    allStatesIffPos ⟨rwf, d0, none⟩ (sessionTrace N ws) = true ∧
    (runB ⟨rwf, d0, none⟩ (sessionTrace N ws)).2.length ≤ 1 ∧
    ((runB ⟨rwf, d0, none⟩ (sessionTrace N ws)).2 ≠ [] ↔
      (rwf = true ∧ ws ≠ [])) ∧
    ((runB ⟨rwf, d0, none⟩ (sessionTrace N ws)).2 ≠ [] →
      (runB ⟨rwf, d0, none⟩ (sessionTrace N ws)).2 = [applyWs rwf ws d0] ∧
      (runB ⟨rwf, d0, none⟩ (sessionTrace N ws)).1.data =
        applyWs rwf ws d0) := by
  have hassoc : sessionTrace N ws =
      List.replicate N BOp.openB ++
        (ws.map wopToB ++ List.replicate N BOp.releaseB) := by
    simp [sessionTrace]
  have hrun : runB ⟨rwf, d0, none⟩ (sessionTrace N ws) =
      (⟨rwf,
        if (rwf && !ws.isEmpty) then applyWs rwf ws d0 else d0, none⟩,
       if (rwf && !ws.isEmpty) then [applyWs rwf ws d0] else []) := by
    rw [hassoc, runB_append, runB_opens_none N hN]
    rw [runB_append, runB_ws]
    simp only [Bool.false_or]
    rw [runB_releases N hN]
    simp
  refine ⟨?_, ?_, ?_, ?_, ?_, ?_⟩
  · rw [hrun]
    simp [sessionCount]
  · rw [hrun]
  · exact allStates_of_inv _ _ (fun h hh => Option.noConfusion hh)
  · rw [hrun]
    split <;> simp
  · rw [hrun]
    rcases ws with _ | ⟨w, rest⟩ <;> cases rwf <;> simp
  · intro hne
    cases hb : (rwf && !ws.isEmpty) with
    | false =>
        rw [hrun] at hne
        simp [hb] at hne
    | true =>
        rw [hrun]
        simp [hb]

/-- C1 witness: two opens, one write of byte `7` at offset 0, two
releases, on a writable file with committed data `[3, 4]`: the count
returns to zero, the handle is discarded, the iff-invariant holds at every
intermediate state, and `save` is called exactly once with the final
buffer. -/
theorem blobFile_session_lifecycle_witness :
    1 ≤ 2 ∧
    sessionCount
      (runB ⟨true, [3, 4], none⟩ (sessionTrace 2 [WOp.wr [7] 0])).1 = 0 ∧
    (runB ⟨true, [3, 4], none⟩
      (sessionTrace 2 [WOp.wr [7] 0])).1.shared = none ∧
    allStatesIffPos ⟨true, [3, 4], none⟩
      (sessionTrace 2 [WOp.wr [7] 0]) = true ∧
    (runB ⟨true, [3, 4], none⟩
      (sessionTrace 2 [WOp.wr [7] 0])).2.length ≤ 1 ∧
    (runB ⟨true, [3, 4], none⟩ (sessionTrace 2 [WOp.wr [7] 0])).2 =
      [applyWs true [WOp.wr [7] 0] [3, 4]] ∧
    (runB ⟨true, [3, 4], none⟩ (sessionTrace 2 [WOp.wr [7] 0])).1.data =
      applyWs true [WOp.wr [7] 0] [3, 4] := by
  have T := blobFile_session_lifecycle 2 (by norm_num) [WOp.wr [7] 0]
    true [3, 4]
  have hne : (runB ⟨true, [3, 4], none⟩
      (sessionTrace 2 [WOp.wr [7] 0])).2 ≠ [] :=
    T.2.2.2.2.1.mpr ⟨rfl, by simp⟩
  exact ⟨by norm_num, T.1, T.2.1, T.2.2.1, T.2.2.2.1,
    (T.2.2.2.2.2 hne).1, (T.2.2.2.2.2 hne).2⟩

/-- C2: on a writable `BlobFile`, two `open` calls issued before any
release both hand out the one shared handle (reference count 2); a
`write` of `D` at offset 0 through it followed by a `read` of
`D.length` bytes at offset 0 — through the same shared buffer both
sessions observe — returns exactly `D`. -/
theorem blobFile_shared_buffer_coherence (d0 D : List Nat) :
    (runB ⟨true, d0, none⟩
        [BOp.openB, BOp.openB, BOp.writeB D 0]).1.shared =
      some ⟨bytesWrite d0 0 D, true, 2⟩ ∧
    bytesRead (bytesWrite d0 0 D) D.length 0 = D := by
  constructor
  · simp [runB, stepB]
  · simp [bytesRead, bytesWrite, List.take_left]

end Fusetree
